/-
  Verification of the v2.4.0 knowledge-table migration
  (libs/agno/agno/db/migrations/versions/v2_4_0.py).

  Shallow embedding: a table is modelled by its column-name list, its
  index-name list, and its rows (each row reduced to its `source_type`
  cell, the only cell the migration reads or writes; `none` models SQL
  NULL or a physically absent column).  Each Python migration/revert
  function becomes a pure Lean function from the table state to
  (return value, new table state, emitted effects).  Effects record, in
  program order, every `sess.execute(text(...))` call (as a `Stmt`
  carrying its key parameters; identifier quoting is out of scope per
  the spec) and every log call with its level.
-/
import Mathlib

namespace V240

/-- One `sess.execute(text(...))` call, identified by its SQL shape and
key parameters (schema, table, column, index names).  Quoting of
identifiers is not modelled. -/
inductive Stmt where
  | checkTableExists (schema : Option String) (table : String)
  | listColumnsInfo (schema : Option String) (table : String)
  | addColumn (table col ty : String)
  | checkIndexExists (schema : Option String) (table idx : String)
  | createIndexIfNotExists (idx table col : String)
  | addIndex (idx table col : String)
  | backfillSourceType (table : String)
  | dropIndexIfExists (schema : Option String) (idx : String)
  | dropIndex (table idx : String)
  | dropColumnIfExists (table col : String)
deriving DecidableEq, Repr

/-- An observable effect: an executed SQL statement or a log line. -/
inductive Eff where
  | sql (s : Stmt)
  | logInfo (m : String)
  | logWarning (m : String)
  | logError (m : String)
deriving DecidableEq, Repr

/-- The SQL statements of an effect trace, in order. -/
def sqlOf (effs : List Eff) : List Stmt :=
  effs.filterMap fun e => match e with
    | .sql s => some s
    | _ => none

/-- A table: its column names, its index names, and its rows, each row
reduced to the value of its `source_type` cell (`none` = NULL or the
column does not physically exist yet). -/
structure Table where
  cols : List String
  idxs : List String
  rows : List (Option String)
deriving DecidableEq, Repr

/-- `KNOWLEDGE_COLUMNS` from the source: the eleven columns this
revision adds, with their declared SQL types. -/
def knowledgeColumns : List (String × String) :=
  [("original_path", "TEXT"),
   ("storage_path", "TEXT"),
   ("relative_path", "TEXT"),
   ("root_id", "VARCHAR(255)"),
   ("root_path", "TEXT"),
   ("root_label", "VARCHAR(255)"),
   ("source_type", "VARCHAR(50)"),
   ("parent_folder", "VARCHAR(255)"),
   ("link_status", "VARCHAR(50)"),
   ("link_checked_at", "BIGINT"),
   ("upload_batch_id", "VARCHAR(255)")]

/-- `INDEXED_COLUMNS` from the source. -/
def indexedColumns : List String :=
  ["source_type", "upload_batch_id", "root_id", "root_path"]

/-- `f"idx_{table_name}_{col_name}"` from the source. -/
def indexName (tableName col : String) : String :=
  "idx_" ++ tableName ++ "_" ++ col

/-- Python's `db.db_schema or default`: `None` and the empty string are
falsy and fall back to the default. -/
def orDefault (s : Option String) (d : String) : String :=
  match s with
  | none => d
  | some v => if v = "" then d else v

/-- The source's SQLite type mapping
`col_type.replace("VARCHAR(255)", "VARCHAR").replace("VARCHAR(50)", "VARCHAR")`,
evaluated on the fixed type vocabulary of `knowledgeColumns`. -/
def sqliteColType (t : String) : String :=
  if t = "VARCHAR(255)" ∨ t = "VARCHAR(50)" then "VARCHAR" else t

/-- Accumulator threaded through a migration body: current table state,
effects so far, and the `applied_changes` flag. -/
structure MigAcc where
  tbl : Table
  effs : List Eff
  applied : Bool
deriving DecidableEq, Repr

/-- The column-addition loop shared textually by every dialect's
migrate function: for each target column absent from the introspected
snapshot `existing`, log, issue `ALTER TABLE ... ADD COLUMN`, and set
`applied_changes`.  Membership is tested against the snapshot, exactly
as in the source. -/
def addColumnsLoop (tableName : String) (mapT : String → String)
    (existing : List String) :
    List (String × String) → MigAcc → MigAcc
  | [], acc => acc
  | c :: rest, acc =>
    let acc' :=
      if c.1 ∈ existing then acc
      else
        { tbl := { acc.tbl with cols := acc.tbl.cols ++ [c.1] },
          effs := acc.effs ++
            [Eff.logInfo ("-- Adding " ++ c.1 ++ " column to " ++ tableName),
             Eff.sql (Stmt.addColumn tableName c.1 (mapT c.2))],
          applied := true }
    addColumnsLoop tableName mapT existing rest acc'

/-- The checked index loop shared (textually, in the source) by the
Postgres and MySQL migrate bodies: for each indexed column, query the
catalog for the index; when absent, log, issue the creation statement
`mk idx table col`, and set `applied_changes`.  The existence query
reads the live catalog, i.e. the evolving index list. -/
def checkedIndexLoop (mk : String → String → String → Stmt)
    (schema : Option String) (tableName : String) :
    List String → MigAcc → MigAcc
  | [], acc => acc
  | col :: rest, acc =>
    let idx := indexName tableName col
    let acc1 := { acc with
      effs := acc.effs ++ [Eff.sql (Stmt.checkIndexExists schema tableName idx)] }
    let acc' :=
      if idx ∈ acc.tbl.idxs then acc1
      else
        { tbl := { acc1.tbl with idxs := acc1.tbl.idxs ++ [idx] },
          effs := acc1.effs ++
            [Eff.logInfo ("-- Adding index " ++ idx),
             Eff.sql (mk idx tableName col)],
          applied := true }
    checkedIndexLoop mk schema tableName rest acc'

/-- The Postgres index loop: catalog check via `pg_indexes`, creation
via `CREATE INDEX IF NOT EXISTS`. -/
def pgIndexLoop (schema : Option String) (tableName : String) :
    List String → MigAcc → MigAcc :=
  checkedIndexLoop Stmt.createIndexIfNotExists schema tableName

/-- The MySQL index loop: catalog check via
`INFORMATION_SCHEMA.STATISTICS`, creation via a plain
`ALTER TABLE ... ADD INDEX` (not a conditional form). -/
def mysqlIndexLoop (schema : Option String) (tableName : String) :
    List String → MigAcc → MigAcc :=
  checkedIndexLoop Stmt.addIndex schema tableName

/-- The SQLite index loop: no existence check; `CREATE INDEX IF NOT
EXISTS` is issued unconditionally for every indexed column, the state
gains the index when absent, and `applied_changes` is never touched. -/
def sqliteIndexLoop (tableName : String) :
    List String → MigAcc → MigAcc
  | [], acc => acc
  | col :: rest, acc =>
    let idx := indexName tableName col
    let acc' :=
      { acc with
        tbl := { acc.tbl with
          idxs := if idx ∈ acc.tbl.idxs then acc.tbl.idxs
                  else acc.tbl.idxs ++ [idx] },
        effs := acc.effs ++
          [Eff.sql (Stmt.createIndexIfNotExists idx tableName col)] }
    sqliteIndexLoop tableName rest acc'

/-- The backfill step shared by every dialect: when `source_type` was
absent from the snapshot or anything was applied, issue
`UPDATE ... SET source_type = 'legacy' WHERE source_type IS NULL`,
which sets exactly the NULL cells to the sentinel. -/
def backfillStep (tableName : String) (existing : List String)
    (acc : MigAcc) : MigAcc :=
  if "source_type" ∉ existing ∨ acc.applied = true then
    { acc with
      tbl := { acc.tbl with
        rows := acc.tbl.rows.map fun r =>
          if r = none then some "legacy" else r },
      effs := acc.effs ++
        [Eff.logInfo "-- Backfilling source_type='legacy' for existing rows",
         Eff.sql (Stmt.backfillSourceType tableName)] }
  else acc

/-- `_migrate_postgres`. -/
def migratePostgres (dbSchema : Option String) (tableName : String)
    (ts : Option Table) : Bool × Option Table × List Eff :=
  let schema := orDefault dbSchema "public"
  let e0 : List Eff := [Eff.sql (Stmt.checkTableExists (some schema) tableName)]
  match ts with
  | none =>
    (false, none,
     e0 ++ [Eff.logInfo ("Table " ++ tableName ++ " does not exist, skipping migration")])
  | some t =>
    let existing := t.cols
    let acc0 : MigAcc :=
      { tbl := t,
        effs := e0 ++ [Eff.sql (Stmt.listColumnsInfo (some schema) tableName)],
        applied := false }
    let acc1 := addColumnsLoop tableName id existing knowledgeColumns acc0
    let acc2 := pgIndexLoop (some schema) tableName indexedColumns acc1
    let acc3 := backfillStep tableName existing acc2
    (acc3.applied, some acc3.tbl, acc3.effs)

/-- `_migrate_async_postgres`: the async body repeats the sync logic
statement for statement. -/
def migrateAsyncPostgres (dbSchema : Option String) (tableName : String)
    (ts : Option Table) : Bool × Option Table × List Eff :=
  let schema := orDefault dbSchema "public"
  let e0 : List Eff := [Eff.sql (Stmt.checkTableExists (some schema) tableName)]
  match ts with
  | none =>
    (false, none,
     e0 ++ [Eff.logInfo ("Table " ++ tableName ++ " does not exist, skipping migration")])
  | some t =>
    let existing := t.cols
    let acc0 : MigAcc :=
      { tbl := t,
        effs := e0 ++ [Eff.sql (Stmt.listColumnsInfo (some schema) tableName)],
        applied := false }
    let acc1 := addColumnsLoop tableName id existing knowledgeColumns acc0
    let acc2 := pgIndexLoop (some schema) tableName indexedColumns acc1
    let acc3 := backfillStep tableName existing acc2
    (acc3.applied, some acc3.tbl, acc3.effs)

/-- `_migrate_sqlite`.  No schema; existence via `sqlite_master`;
columns via `PRAGMA table_info`; index creation unconditional and not
counted in `applied_changes`. -/
def migrateSqlite (tableName : String) (ts : Option Table) :
    Bool × Option Table × List Eff :=
  let e0 : List Eff := [Eff.sql (Stmt.checkTableExists none tableName)]
  match ts with
  | none =>
    (false, none,
     e0 ++ [Eff.logInfo ("Table " ++ tableName ++ " does not exist, skipping migration")])
  | some t =>
    let existing := t.cols
    let acc0 : MigAcc :=
      { tbl := t,
        effs := e0 ++ [Eff.sql (Stmt.listColumnsInfo none tableName)],
        applied := false }
    let acc1 := addColumnsLoop tableName sqliteColType existing knowledgeColumns acc0
    let acc2 := sqliteIndexLoop tableName indexedColumns acc1
    let acc3 := backfillStep tableName existing acc2
    (acc3.applied, some acc3.tbl, acc3.effs)

/-- `_migrate_async_sqlite`: repeats the sync SQLite logic. -/
def migrateAsyncSqlite (tableName : String) (ts : Option Table) :
    Bool × Option Table × List Eff :=
  let e0 : List Eff := [Eff.sql (Stmt.checkTableExists none tableName)]
  match ts with
  | none =>
    (false, none,
     e0 ++ [Eff.logInfo ("Table " ++ tableName ++ " does not exist, skipping migration")])
  | some t =>
    let existing := t.cols
    let acc0 : MigAcc :=
      { tbl := t,
        effs := e0 ++ [Eff.sql (Stmt.listColumnsInfo none tableName)],
        applied := false }
    let acc1 := addColumnsLoop tableName sqliteColType existing knowledgeColumns acc0
    let acc2 := sqliteIndexLoop tableName indexedColumns acc1
    let acc3 := backfillStep tableName existing acc2
    (acc3.applied, some acc3.tbl, acc3.effs)

/-- `_migrate_mysql`: schema default "agno"; index existence checked in
`INFORMATION_SCHEMA.STATISTICS` before a plain `ADD INDEX`. -/
def migrateMysql (dbSchema : Option String) (tableName : String)
    (ts : Option Table) : Bool × Option Table × List Eff :=
  let schema := orDefault dbSchema "agno"
  let e0 : List Eff := [Eff.sql (Stmt.checkTableExists (some schema) tableName)]
  match ts with
  | none =>
    (false, none,
     e0 ++ [Eff.logInfo ("Table " ++ tableName ++ " does not exist, skipping migration")])
  | some t =>
    let existing := t.cols
    let acc0 : MigAcc :=
      { tbl := t,
        effs := e0 ++ [Eff.sql (Stmt.listColumnsInfo (some schema) tableName)],
        applied := false }
    let acc1 := addColumnsLoop tableName id existing knowledgeColumns acc0
    let acc2 := mysqlIndexLoop (some schema) tableName indexedColumns acc1
    let acc3 := backfillStep tableName existing acc2
    (acc3.applied, some acc3.tbl, acc3.effs)

/-- `_migrate_singlestore`: delegates to `_migrate_mysql` on the same
arguments. -/
def migrateSinglestore (dbSchema : Option String) (tableName : String)
    (ts : Option Table) : Bool × Option Table × List Eff :=
  migrateMysql dbSchema tableName ts

/-- Dropping the `source_type` column loses its data: every row's
modelled cell becomes `none`.  Dropping any other column leaves the
modelled cells alone. -/
def dropColEffect (col : String) (rows : List (Option String)) :
    List (Option String) :=
  if col = "source_type" then rows.map fun _ => none else rows

/-- `_revert_postgres`: conditional index drops (schema-qualified),
then conditional column drops; returns `True` when the table exists. -/
def revertPostgres (dbSchema : Option String) (tableName : String)
    (ts : Option Table) : Bool × Option Table × List Eff :=
  let schema := orDefault dbSchema "public"
  let e0 : List Eff := [Eff.sql (Stmt.checkTableExists (some schema) tableName)]
  match ts with
  | none =>
    (false, none,
     e0 ++ [Eff.logInfo ("Table " ++ tableName ++ " does not exist, skipping revert")])
  | some t =>
    let idxNames := indexedColumns.map (indexName tableName)
    let e1 := e0 ++ idxNames.map fun idx =>
      Eff.sql (Stmt.dropIndexIfExists (some schema) idx)
    let t1 : Table := { t with idxs := t.idxs.filter (fun i => i ∉ idxNames) }
    let step : Table × List Eff → String × String → Table × List Eff :=
      fun (tb, effs) c =>
        ({ cols := tb.cols.filter (fun n => n ≠ c.1),
           idxs := tb.idxs,
           rows := dropColEffect c.1 tb.rows },
         effs ++ [Eff.sql (Stmt.dropColumnIfExists tableName c.1)])
    let (t2, e2) := knowledgeColumns.foldl step (t1, e1)
    (true, some t2, e2)

/-- `_revert_async_postgres`: repeats the sync Postgres revert. -/
def revertAsyncPostgres (dbSchema : Option String) (tableName : String)
    (ts : Option Table) : Bool × Option Table × List Eff :=
  let schema := orDefault dbSchema "public"
  let e0 : List Eff := [Eff.sql (Stmt.checkTableExists (some schema) tableName)]
  match ts with
  | none =>
    (false, none,
     e0 ++ [Eff.logInfo ("Table " ++ tableName ++ " does not exist, skipping revert")])
  | some t =>
    let idxNames := indexedColumns.map (indexName tableName)
    let e1 := e0 ++ idxNames.map fun idx =>
      Eff.sql (Stmt.dropIndexIfExists (some schema) idx)
    let t1 : Table := { t with idxs := t.idxs.filter (fun i => i ∉ idxNames) }
    let step : Table × List Eff → String × String → Table × List Eff :=
      fun (tb, effs) c =>
        ({ cols := tb.cols.filter (fun n => n ≠ c.1),
           idxs := tb.idxs,
           rows := dropColEffect c.1 tb.rows },
         effs ++ [Eff.sql (Stmt.dropColumnIfExists tableName c.1)])
    let (t2, e2) := knowledgeColumns.foldl step (t1, e1)
    (true, some t2, e2)

/-- `_revert_mysql`: checks `INFORMATION_SCHEMA.STATISTICS` before each
(unconditional) `DROP INDEX`, then conditional column drops. -/
def revertMysql (dbSchema : Option String) (tableName : String)
    (ts : Option Table) : Bool × Option Table × List Eff :=
  let schema := orDefault dbSchema "agno"
  let e0 : List Eff := [Eff.sql (Stmt.checkTableExists (some schema) tableName)]
  match ts with
  | none =>
    (false, none,
     e0 ++ [Eff.logInfo ("Table " ++ tableName ++ " does not exist, skipping revert")])
  | some t =>
    let idxStep : Table × List Eff → String → Table × List Eff :=
      fun (tb, effs) col =>
        let idx := indexName tableName col
        let effs1 := effs ++ [Eff.sql (Stmt.checkIndexExists (some schema) tableName idx)]
        if idx ∈ tb.idxs then
          ({ tb with idxs := tb.idxs.filter (fun i => i ≠ idx) },
           effs1 ++ [Eff.sql (Stmt.dropIndex tableName idx)])
        else (tb, effs1)
    let (t1, e1) := indexedColumns.foldl idxStep (t, e0)
    let colStep : Table × List Eff → String × String → Table × List Eff :=
      fun (tb, effs) c =>
        ({ cols := tb.cols.filter (fun n => n ≠ c.1),
           idxs := tb.idxs,
           rows := dropColEffect c.1 tb.rows },
         effs ++ [Eff.sql (Stmt.dropColumnIfExists tableName c.1)])
    let (t2, e2) := knowledgeColumns.foldl colStep (t1, e1)
    (true, some t2, e2)

/-- `_revert_sqlite`: no statements at all, a warning, `False`. -/
def revertSqlite (tableName : String) (ts : Option Table) :
    Bool × Option Table × List Eff :=
  (false, ts,
   [Eff.logWarning ("-- SQLite does not support DROP COLUMN easily. Manual migration may be required for " ++ tableName ++ ".")])

/-- `_revert_async_sqlite`: identical to the sync SQLite revert. -/
def revertAsyncSqlite (tableName : String) (ts : Option Table) :
    Bool × Option Table × List Eff :=
  (false, ts,
   [Eff.logWarning ("-- SQLite does not support DROP COLUMN easily. Manual migration may be required for " ++ tableName ++ ".")])

/-- `_revert_singlestore`: delegates to `_revert_mysql` on the same
arguments. -/
def revertSinglestore (dbSchema : Option String) (tableName : String)
    (ts : Option Table) : Bool × Option Table × List Eff :=
  revertMysql dbSchema tableName ts

/-- First SQL statement of a trace that the failure oracle `fails`
makes raise, together with the effects emitted before it. -/
def firstFailure (fails : Stmt → Bool) : List Eff → Option (Stmt × List Eff)
  | [] => none
  | Eff.sql s :: rest =>
    if fails s then some (s, [])
    else (firstFailure fails rest).map fun p => (p.1, Eff.sql s :: p.2)
  | e :: rest => (firstFailure fails rest).map fun p => (p.1, e :: p.2)

/-- Failure semantics of one migration/revert body.  The source executes
its statements strictly in order and every query result is determined by
the initial snapshot and the body's own earlier writes, so a run whose
first failing statement is `s` coincides with the fault-free run up to
`s`; at `s` the exception propagates and the enclosing transaction rolls
back, leaving the table in its initial state.  Hence: scan the
fault-free trace, raise at the first statement `fails` selects (emitting
only the effects before it), otherwise return the fault-free result. -/
def runF (fails : Stmt → Bool) (r : Bool × Option Table × List Eff) :
    Except Stmt (Bool × Option Table) × List Eff :=
  match firstFailure fails r.2.2 with
  | some (s, pre) => (Except.error s, pre)
  | none => (Except.ok (r.1, r.2.1), r.2.2)

/-- `_migrate_postgres` under the failure oracle. -/
def migratePostgresF (dbSchema : Option String) (tableName : String)
    (ts : Option Table) (fails : Stmt → Bool) :
    Except Stmt (Bool × Option Table) × List Eff :=
  runF fails (migratePostgres dbSchema tableName ts)

/-- `_migrate_async_postgres` under the failure oracle. -/
def migrateAsyncPostgresF (dbSchema : Option String) (tableName : String)
    (ts : Option Table) (fails : Stmt → Bool) :
    Except Stmt (Bool × Option Table) × List Eff :=
  runF fails (migrateAsyncPostgres dbSchema tableName ts)

/-- `_migrate_mysql` under the failure oracle. -/
def migrateMysqlF (dbSchema : Option String) (tableName : String)
    (ts : Option Table) (fails : Stmt → Bool) :
    Except Stmt (Bool × Option Table) × List Eff :=
  runF fails (migrateMysql dbSchema tableName ts)

/-- `_migrate_sqlite` under the failure oracle. -/
def migrateSqliteF (tableName : String) (ts : Option Table)
    (fails : Stmt → Bool) : Except Stmt (Bool × Option Table) × List Eff :=
  runF fails (migrateSqlite tableName ts)

/-- `_migrate_async_sqlite` under the failure oracle. -/
def migrateAsyncSqliteF (tableName : String) (ts : Option Table)
    (fails : Stmt → Bool) : Except Stmt (Bool × Option Table) × List Eff :=
  runF fails (migrateAsyncSqlite tableName ts)

/-- `_migrate_singlestore` under the failure oracle. -/
def migrateSinglestoreF (dbSchema : Option String) (tableName : String)
    (ts : Option Table) (fails : Stmt → Bool) :
    Except Stmt (Bool × Option Table) × List Eff :=
  runF fails (migrateSinglestore dbSchema tableName ts)

/-- `_revert_postgres` under the failure oracle. -/
def revertPostgresF (dbSchema : Option String) (tableName : String)
    (ts : Option Table) (fails : Stmt → Bool) :
    Except Stmt (Bool × Option Table) × List Eff :=
  runF fails (revertPostgres dbSchema tableName ts)

/-- `_revert_async_postgres` under the failure oracle. -/
def revertAsyncPostgresF (dbSchema : Option String) (tableName : String)
    (ts : Option Table) (fails : Stmt → Bool) :
    Except Stmt (Bool × Option Table) × List Eff :=
  runF fails (revertAsyncPostgres dbSchema tableName ts)

/-- `_revert_mysql` under the failure oracle. -/
def revertMysqlF (dbSchema : Option String) (tableName : String)
    (ts : Option Table) (fails : Stmt → Bool) :
    Except Stmt (Bool × Option Table) × List Eff :=
  runF fails (revertMysql dbSchema tableName ts)

/-- `_revert_sqlite` under the failure oracle. -/
def revertSqliteF (tableName : String) (ts : Option Table)
    (fails : Stmt → Bool) : Except Stmt (Bool × Option Table) × List Eff :=
  runF fails (revertSqlite tableName ts)

/-- `_revert_async_sqlite` under the failure oracle. -/
def revertAsyncSqliteF (tableName : String) (ts : Option Table)
    (fails : Stmt → Bool) : Except Stmt (Bool × Option Table) × List Eff :=
  runF fails (revertAsyncSqlite tableName ts)

/-- `_revert_singlestore` under the failure oracle. -/
def revertSinglestoreF (dbSchema : Option String) (tableName : String)
    (ts : Option Table) (fails : Stmt → Bool) :
    Except Stmt (Bool × Option Table) × List Eff :=
  runF fails (revertSinglestore dbSchema tableName ts)

/-- The dialect dispatch chain of `up`: which inner migration a
`db_type` name selects, `none` for unsupported kinds. -/
def upDispatch (dbType : String) (dbSchema : Option String)
    (tableName : String) (ts : Option Table) (fails : Stmt → Bool) :
    Option (Except Stmt (Bool × Option Table) × List Eff) :=
  if dbType = "PostgresDb" then some (migratePostgresF dbSchema tableName ts fails)
  else if dbType = "MySQLDb" then some (migrateMysqlF dbSchema tableName ts fails)
  else if dbType = "SqliteDb" then some (migrateSqliteF tableName ts fails)
  else if dbType = "SingleStoreDb" then some (migrateSinglestoreF dbSchema tableName ts fails)
  else none

/-- The dialect dispatch chain of `async_up`. -/
def asyncUpDispatch (dbType : String) (dbSchema : Option String)
    (tableName : String) (ts : Option Table) (fails : Stmt → Bool) :
    Option (Except Stmt (Bool × Option Table) × List Eff) :=
  if dbType = "AsyncPostgresDb" then some (migrateAsyncPostgresF dbSchema tableName ts fails)
  else if dbType = "AsyncSqliteDb" then some (migrateAsyncSqliteF tableName ts fails)
  else none

/-- The dialect dispatch chain of `down`. -/
def downDispatch (dbType : String) (dbSchema : Option String)
    (tableName : String) (ts : Option Table) (fails : Stmt → Bool) :
    Option (Except Stmt (Bool × Option Table) × List Eff) :=
  if dbType = "PostgresDb" then some (revertPostgresF dbSchema tableName ts fails)
  else if dbType = "MySQLDb" then some (revertMysqlF dbSchema tableName ts fails)
  else if dbType = "SqliteDb" then some (revertSqliteF tableName ts fails)
  else if dbType = "SingleStoreDb" then some (revertSinglestoreF dbSchema tableName ts fails)
  else none

/-- The dialect dispatch chain of `async_down`. -/
def asyncDownDispatch (dbType : String) (dbSchema : Option String)
    (tableName : String) (ts : Option Table) (fails : Stmt → Bool) :
    Option (Except Stmt (Bool × Option Table) × List Eff) :=
  if dbType = "AsyncPostgresDb" then some (revertAsyncPostgresF dbSchema tableName ts fails)
  else if dbType = "AsyncSqliteDb" then some (revertAsyncSqliteF tableName ts fails)
  else none

/-- The `try/except` of the four entry points: an inner success returns
the boolean; an inner exception is logged at error level (the Python
message also interpolates the exception's own text) and re-raised
unchanged. -/
def tryWrap (r : Except Stmt (Bool × Option Table) × List Eff)
    (msg : String) : Except Stmt Bool × List Eff :=
  match r with
  | (Except.ok (b, _), effs) => (Except.ok b, effs)
  | (Except.error e, effs) => (Except.error e, effs ++ [Eff.logError msg])

/-- `up`: role gate, dialect dispatch, try/except. -/
def up (dbType : String) (dbSchema : Option String)
    (tableType tableName : String) (ts : Option Table)
    (fails : Stmt → Bool) : Except Stmt Bool × List Eff :=
  if tableType ≠ "knowledge" then (Except.ok false, [])
  else
    match upDispatch dbType dbSchema tableName ts fails with
    | some r =>
      tryWrap r ("Error running migration v2.4.0 for " ++ dbType ++ " on table " ++ tableName)
    | none =>
      (Except.ok false,
       [Eff.logInfo (dbType ++ " does not require schema migrations (NoSQL/document store)")])

/-- `async_up`. -/
def asyncUp (dbType : String) (dbSchema : Option String)
    (tableType tableName : String) (ts : Option Table)
    (fails : Stmt → Bool) : Except Stmt Bool × List Eff :=
  if tableType ≠ "knowledge" then (Except.ok false, [])
  else
    match asyncUpDispatch dbType dbSchema tableName ts fails with
    | some r =>
      tryWrap r ("Error running migration v2.4.0 for " ++ dbType ++ " on table " ++ tableName)
    | none =>
      (Except.ok false,
       [Eff.logInfo (dbType ++ " does not require schema migrations (NoSQL/document store)")])

/-- `down`. -/
def down (dbType : String) (dbSchema : Option String)
    (tableType tableName : String) (ts : Option Table)
    (fails : Stmt → Bool) : Except Stmt Bool × List Eff :=
  if tableType ≠ "knowledge" then (Except.ok false, [])
  else
    match downDispatch dbType dbSchema tableName ts fails with
    | some r =>
      tryWrap r ("Error reverting migration v2.4.0 for " ++ dbType ++ " on table " ++ tableName)
    | none =>
      (Except.ok false, [Eff.logInfo ("Revert not implemented for " ++ dbType)])

/-- `async_down`. -/
def asyncDown (dbType : String) (dbSchema : Option String)
    (tableType tableName : String) (ts : Option Table)
    (fails : Stmt → Bool) : Except Stmt Bool × List Eff :=
  if tableType ≠ "knowledge" then (Except.ok false, [])
  else
    match asyncDownDispatch dbType dbSchema tableName ts fails with
    | some r =>
      tryWrap r ("Error reverting migration v2.4.0 for " ++ dbType ++ " on table " ++ tableName)
    | none =>
      (Except.ok false, [Eff.logInfo ("Revert not implemented for " ++ dbType)])

/-! ### Derived notions used in the statements -/

/-- The target columns absent from an introspected snapshot: exactly
the columns an apply run adds. -/
def mCols (ex : List String) : List (String × String) :=
  knowledgeColumns.filter fun c => c.1 ∉ ex

/-- The target index names absent from a table's index list: exactly
the indexes an apply run creates. -/
def mIdxs (tableName : String) (idxs : List String) : List String :=
  (indexedColumns.map (indexName tableName)).filter fun i => i ∉ idxs

/-- Some target column is missing from the snapshot. -/
def colPending (ex : List String) : Bool :=
  knowledgeColumns.any fun c => c.1 ∉ ex

/-- Some target index is missing from the table. -/
def idxPending (tableName : String) (idxs : List String) : Bool :=
  indexedColumns.any fun col => indexName tableName col ∉ idxs

/-- The backfill's row transformation: NULL `source_type` cells become
the sentinel, all other cells are untouched. -/
def legacyFill (rows : List (Option String)) : List (Option String) :=
  rows.map fun r => if r = none then some "legacy" else r

/-! ### Loop characterizations -/

lemma flatMap_congr_mem {α β : Type} {l : List α} {f g : α → List β}
    (h : ∀ a ∈ l, f a = g a) : l.flatMap f = l.flatMap g := by
  induction l with
  | nil => rfl
  | cons a l ih =>
    simp only [List.flatMap_cons]
    rw [h a (by simp), ih fun a ha => h a (by simp [ha])]

lemma indexName_ne_of_length_ne {tn c1 c2 : String}
    (h : c1.length ≠ c2.length) : indexName tn c1 ≠ indexName tn c2 := by
  intro he
  apply h
  have h2 := congrArg String.length he
  simp only [indexName, String.length_append] at h2
  omega

/-- The four index names derived from a table name are pairwise
distinct (the indexed column names have pairwise distinct lengths). -/
lemma indexNames_nodup (tn : String) :
    ((indexedColumns.map (indexName tn))).Nodup := by
  have hinj : ∀ x ∈ indexedColumns, ∀ y ∈ indexedColumns,
      x.length = y.length → x = y := by decide
  refine List.Nodup.map_on ?_ (by decide)
  intro x hx y hy hf
  refine hinj x hx y hy ?_
  have h2 := congrArg String.length hf
  simp only [indexName, String.length_append] at h2
  omega

/-- What the column-addition loop does, as a single equation: columns
gain the missing names in order, indexes and rows are untouched, the
trace gains one log and one `ADD COLUMN` per missing column, and
`applied_changes` is or-ed with "some column was missing". -/
lemma addColumnsLoop_spec (tn : String) (mT : String → String)
    (ex : List String) (cs : List (String × String)) :
    ∀ acc : MigAcc,
    addColumnsLoop tn mT ex cs acc =
      { tbl := { cols := acc.tbl.cols ++ (cs.filter fun c => c.1 ∉ ex).map Prod.fst,
                 idxs := acc.tbl.idxs,
                 rows := acc.tbl.rows },
        effs := acc.effs ++ (cs.filter fun c => c.1 ∉ ex).flatMap fun c =>
          [Eff.logInfo ("-- Adding " ++ c.1 ++ " column to " ++ tn),
           Eff.sql (Stmt.addColumn tn c.1 (mT c.2))],
        applied := acc.applied || cs.any fun c => c.1 ∉ ex } := by
  induction cs with
  | nil => intro acc; simp [addColumnsLoop]
  | cons c rest ih =>
    intro acc
    by_cases h : c.1 ∈ ex
    · simp only [addColumnsLoop, if_pos h, ih]
      simp [List.filter_cons, List.any_cons, h]
    · simp only [addColumnsLoop, if_neg h, ih]
      simp [List.filter_cons, List.any_cons, h]

/-- What the checked (Postgres/MySQL) index loop does: indexes gain the
missing names, columns and rows are untouched, the trace gains one
existence query per indexed column plus one log and one creation
statement per missing index, and `applied_changes` is or-ed with "some
index was missing".  Requires the derived index names to be pairwise
distinct, which `indexNames_nodup` provides at every table name. -/
lemma checkedIndexLoop_spec (mk : String → String → String → Stmt)
    (sch : Option String) (tn : String) (cols : List String) :
    ∀ acc : MigAcc, (cols.map (indexName tn)).Nodup →
    checkedIndexLoop mk sch tn cols acc =
      { tbl := { cols := acc.tbl.cols,
                 idxs := acc.tbl.idxs ++
                   (cols.map (indexName tn)).filter (fun i => i ∉ acc.tbl.idxs),
                 rows := acc.tbl.rows },
        effs := acc.effs ++ cols.flatMap (fun col =>
          Eff.sql (Stmt.checkIndexExists sch tn (indexName tn col)) ::
          (if indexName tn col ∈ acc.tbl.idxs then []
           else [Eff.logInfo ("-- Adding index " ++ indexName tn col),
                 Eff.sql (mk (indexName tn col) tn col)])),
        applied := acc.applied ||
          cols.any (fun col => indexName tn col ∉ acc.tbl.idxs) } := by
  induction cols with
  | nil => intro acc _; simp [checkedIndexLoop]
  | cons col rest ih =>
    intro acc hnd
    rw [List.map_cons, List.nodup_cons] at hnd
    have hns := hnd
    have hx : ∀ c ∈ rest, indexName tn c ≠ indexName tn col := by
      intro c hc he
      exact hns.1 (he ▸ List.mem_map_of_mem (indexName tn) hc)
    by_cases h : indexName tn col ∈ acc.tbl.idxs
    · simp only [checkedIndexLoop, if_pos h, ih _ hns.2]
      simp [List.filter_cons, List.any_cons, h]
    · simp only [checkedIndexLoop, if_neg h, ih _ hns.2]
      simp [List.filter_cons, List.any_cons, h]
      constructor
      · refine List.filter_congr ?_
        intro m hm
        rcases List.mem_map.mp hm with ⟨c, hc, rfl⟩
        simp [hx c hc]
      · refine flatMap_congr_mem ?_
        intro c hc
        simp [hx c hc]

/-- What the SQLite index loop does: indexes gain the missing names,
columns, rows and `applied_changes` are untouched, and the trace gains
one unconditional `CREATE INDEX IF NOT EXISTS` per indexed column —
and no existence query. -/
lemma sqliteIndexLoop_spec (tn : String) (cols : List String) :
    ∀ acc : MigAcc, (cols.map (indexName tn)).Nodup →
    sqliteIndexLoop tn cols acc =
      { tbl := { cols := acc.tbl.cols,
                 idxs := acc.tbl.idxs ++
                   (cols.map (indexName tn)).filter (fun i => i ∉ acc.tbl.idxs),
                 rows := acc.tbl.rows },
        effs := acc.effs ++ cols.map (fun col =>
          Eff.sql (Stmt.createIndexIfNotExists (indexName tn col) tn col)),
        applied := acc.applied } := by
  induction cols with
  | nil => intro acc _; simp [sqliteIndexLoop]
  | cons col rest ih =>
    intro acc hnd
    rw [List.map_cons, List.nodup_cons] at hnd
    have hns := hnd
    have hx : ∀ c ∈ rest, indexName tn c ≠ indexName tn col := by
      intro c hc he
      exact hns.1 (he ▸ List.mem_map_of_mem (indexName tn) hc)
    by_cases h : indexName tn col ∈ acc.tbl.idxs
    · simp only [sqliteIndexLoop, if_pos h, ih _ hns.2]
      simp [List.filter_cons, h]
    · simp only [sqliteIndexLoop, if_neg h, ih _ hns.2]
      simp [List.filter_cons, h]
      refine List.filter_congr ?_
      intro m hm
      rcases List.mem_map.mp hm with ⟨c, hc, rfl⟩
      simp [hx c hc]

/-- Full characterization of `_migrate_postgres` on an existing table:
return value, resulting table, and full effect trace. -/
lemma migratePostgres_char (sch : Option String) (tn : String) (t : Table) :
    migratePostgres sch tn (some t) =
      (colPending t.cols || idxPending tn t.idxs,
       some { cols := t.cols ++ (mCols t.cols).map Prod.fst,
              idxs := t.idxs ++ mIdxs tn t.idxs,
              rows := if "source_type" ∉ t.cols ∨ (colPending t.cols || idxPending tn t.idxs) = true
                      then legacyFill t.rows else t.rows },
       [Eff.sql (Stmt.checkTableExists (some (orDefault sch "public")) tn),
        Eff.sql (Stmt.listColumnsInfo (some (orDefault sch "public")) tn)] ++
       (mCols t.cols).flatMap (fun c =>
         [Eff.logInfo ("-- Adding " ++ c.1 ++ " column to " ++ tn),
          Eff.sql (Stmt.addColumn tn c.1 c.2)]) ++
       indexedColumns.flatMap (fun col =>
         Eff.sql (Stmt.checkIndexExists (some (orDefault sch "public")) tn (indexName tn col)) ::
         (if indexName tn col ∈ t.idxs then []
          else [Eff.logInfo ("-- Adding index " ++ indexName tn col),
                Eff.sql (Stmt.createIndexIfNotExists (indexName tn col) tn col)])) ++
       (if "source_type" ∉ t.cols ∨ (colPending t.cols || idxPending tn t.idxs) = true
        then [Eff.logInfo "-- Backfilling source_type='legacy' for existing rows",
              Eff.sql (Stmt.backfillSourceType tn)]
        else [])) := by
  simp only [migratePostgres, pgIndexLoop, addColumnsLoop_spec,
    checkedIndexLoop_spec, indexNames_nodup, backfillStep, mCols, mIdxs,
    colPending, idxPending, legacyFill, Bool.false_or]
  split_ifs with hb
  · simp [List.append_assoc]
  · simp [List.append_assoc]

/-- Full characterization of `_migrate_mysql` on an existing table. -/
lemma migrateMysql_char (sch : Option String) (tn : String) (t : Table) :
    migrateMysql sch tn (some t) =
      (colPending t.cols || idxPending tn t.idxs,
       some { cols := t.cols ++ (mCols t.cols).map Prod.fst,
              idxs := t.idxs ++ mIdxs tn t.idxs,
              rows := if "source_type" ∉ t.cols ∨ (colPending t.cols || idxPending tn t.idxs) = true
                      then legacyFill t.rows else t.rows },
       [Eff.sql (Stmt.checkTableExists (some (orDefault sch "agno")) tn),
        Eff.sql (Stmt.listColumnsInfo (some (orDefault sch "agno")) tn)] ++
       (mCols t.cols).flatMap (fun c =>
         [Eff.logInfo ("-- Adding " ++ c.1 ++ " column to " ++ tn),
          Eff.sql (Stmt.addColumn tn c.1 c.2)]) ++
       indexedColumns.flatMap (fun col =>
         Eff.sql (Stmt.checkIndexExists (some (orDefault sch "agno")) tn (indexName tn col)) ::
         (if indexName tn col ∈ t.idxs then []
          else [Eff.logInfo ("-- Adding index " ++ indexName tn col),
                Eff.sql (Stmt.addIndex (indexName tn col) tn col)])) ++
       (if "source_type" ∉ t.cols ∨ (colPending t.cols || idxPending tn t.idxs) = true
        then [Eff.logInfo "-- Backfilling source_type='legacy' for existing rows",
              Eff.sql (Stmt.backfillSourceType tn)]
        else [])) := by
  simp only [migrateMysql, mysqlIndexLoop, addColumnsLoop_spec,
    checkedIndexLoop_spec, indexNames_nodup, backfillStep, mCols, mIdxs,
    colPending, idxPending, legacyFill, Bool.false_or]
  split_ifs with hb
  · simp [List.append_assoc]
  · simp [List.append_assoc]

/-- Full characterization of `_migrate_sqlite` on an existing table.
The return value ignores index creation, and the backfill trigger
ignores index creation too. -/
lemma migrateSqlite_char (tn : String) (t : Table) :
    migrateSqlite tn (some t) =
      (colPending t.cols,
       some { cols := t.cols ++ (mCols t.cols).map Prod.fst,
              idxs := t.idxs ++ mIdxs tn t.idxs,
              rows := if "source_type" ∉ t.cols ∨ colPending t.cols = true
                      then legacyFill t.rows else t.rows },
       [Eff.sql (Stmt.checkTableExists none tn),
        Eff.sql (Stmt.listColumnsInfo none tn)] ++
       (mCols t.cols).flatMap (fun c =>
         [Eff.logInfo ("-- Adding " ++ c.1 ++ " column to " ++ tn),
          Eff.sql (Stmt.addColumn tn c.1 (sqliteColType c.2))]) ++
       indexedColumns.map (fun col =>
         Eff.sql (Stmt.createIndexIfNotExists (indexName tn col) tn col)) ++
       (if "source_type" ∉ t.cols ∨ colPending t.cols = true
        then [Eff.logInfo "-- Backfilling source_type='legacy' for existing rows",
              Eff.sql (Stmt.backfillSourceType tn)]
        else [])) := by
  simp only [migrateSqlite, addColumnsLoop_spec, sqliteIndexLoop_spec,
    indexNames_nodup, backfillStep, mCols, mIdxs, colPending, legacyFill,
    Bool.false_or]
  split_ifs with hb
  · simp [List.append_assoc]
  · simp [List.append_assoc]

/-! ### Completeness of one apply run -/

lemma mem_append_mCols {ex : List String} {c : String × String}
    (hc : c ∈ knowledgeColumns) :
    c.1 ∈ ex ++ (mCols ex).map Prod.fst := by
  by_cases h : c.1 ∈ ex
  · exact List.mem_append.mpr (Or.inl h)
  · refine List.mem_append.mpr (Or.inr ?_)
    refine List.mem_map.mpr ⟨c, ?_, rfl⟩
    refine List.mem_filter.mpr ⟨hc, ?_⟩
    simpa using h

lemma mem_append_mIdxs {idxs : List String} {tn col : String}
    (hc : col ∈ indexedColumns) :
    indexName tn col ∈ idxs ++ mIdxs tn idxs := by
  by_cases h : indexName tn col ∈ idxs
  · exact List.mem_append.mpr (Or.inl h)
  · refine List.mem_append.mpr (Or.inr ?_)
    refine List.mem_filter.mpr ⟨List.mem_map_of_mem _ hc, ?_⟩
    simpa using h

lemma colPending_after (ex : List String) :
    colPending (ex ++ (mCols ex).map Prod.fst) = false := by
  simp only [colPending]
  rw [List.any_eq_false]
  intro c hc
  exact fun hd => (of_decide_eq_true hd) (mem_append_mCols hc)

lemma idxPending_after (tn : String) (idxs : List String) :
    idxPending tn (idxs ++ mIdxs tn idxs) = false := by
  simp only [idxPending]
  rw [List.any_eq_false]
  intro col hc
  exact fun hd => (of_decide_eq_true hd) (mem_append_mIdxs hc)

lemma mCols_after (ex : List String) :
    mCols (ex ++ (mCols ex).map Prod.fst) = [] := by
  simp only [mCols]
  rw [List.filter_eq_nil_iff]
  intro c hc
  exact fun hd => (of_decide_eq_true hd) (mem_append_mCols hc)

lemma mIdxs_after (tn : String) (idxs : List String) :
    mIdxs tn (idxs ++ mIdxs tn idxs) = [] := by
  simp only [mIdxs]
  rw [List.filter_eq_nil_iff]
  intro i hi
  rcases List.mem_map.mp hi with ⟨col, hcol, rfl⟩
  exact fun hd => (of_decide_eq_true hd) (mem_append_mIdxs hcol)

lemma sourceType_mem_after (ex : List String) :
    "source_type" ∈ ex ++ (mCols ex).map Prod.fst :=
  mem_append_mCols (c := ("source_type", "VARCHAR(50)")) (by decide)

/-- One apply call followed by a second on its result: the second call
reports `false` and leaves the table untouched; the first call reports
`true` exactly under `firstTrue`. -/
def applyTwiceSpec (apply : Option Table → Bool × Option Table × List Eff)
    (firstTrue : Prop) (t : Table) : Prop :=
  (apply (apply (some t)).2.1).1 = false ∧
  (apply (apply (some t)).2.1).2.1 = (apply (some t)).2.1 ∧
  ((apply (some t)).1 = true ↔ firstTrue)

lemma applyTwiceSpec_pg (sch : Option String) (tn : String) (t : Table) :
    applyTwiceSpec (migratePostgres sch tn)
      ((∃ c ∈ knowledgeColumns, c.1 ∉ t.cols) ∨
       ∃ col ∈ indexedColumns, indexName tn col ∉ t.idxs) t := by
  unfold applyTwiceSpec
  simp only [migratePostgres_char]
  refine ⟨?_, ?_, ?_⟩
  · simp [colPending_after, idxPending_after]
  · simp [mCols_after, mIdxs_after, colPending_after, idxPending_after,
      sourceType_mem_after]
    intro h1 h2
    refine absurd ?_ (h2 "VARCHAR(50)")
    unfold mCols
    refine List.mem_filter.mpr ⟨by decide, ?_⟩
    simpa using h1
  · simp [colPending, idxPending, List.any_eq_true]

lemma applyTwiceSpec_mysql (sch : Option String) (tn : String) (t : Table) :
    applyTwiceSpec (migrateMysql sch tn)
      ((∃ c ∈ knowledgeColumns, c.1 ∉ t.cols) ∨
       ∃ col ∈ indexedColumns, indexName tn col ∉ t.idxs) t := by
  unfold applyTwiceSpec
  simp only [migrateMysql_char]
  refine ⟨?_, ?_, ?_⟩
  · simp [colPending_after, idxPending_after]
  · simp [mCols_after, mIdxs_after, colPending_after, idxPending_after,
      sourceType_mem_after]
    intro h1 h2
    refine absurd ?_ (h2 "VARCHAR(50)")
    unfold mCols
    refine List.mem_filter.mpr ⟨by decide, ?_⟩
    simpa using h1
  · simp [colPending, idxPending, List.any_eq_true]

lemma applyTwiceSpec_sqlite (tn : String) (t : Table) :
    applyTwiceSpec (migrateSqlite tn)
      (∃ c ∈ knowledgeColumns, c.1 ∉ t.cols) t := by
  unfold applyTwiceSpec
  simp only [migrateSqlite_char]
  refine ⟨?_, ?_, ?_⟩
  · simp [colPending_after]
  · simp [mCols_after, mIdxs_after, colPending_after, sourceType_mem_after]
    intro h1 h2
    refine absurd ?_ (h2 "VARCHAR(50)")
    unfold mCols
    refine List.mem_filter.mpr ⟨by decide, ?_⟩
    simpa using h1
  · simp [colPending, List.any_eq_true]

/-! ### Concrete tables used in counterexamples and witnesses -/

/-- The names of all eleven target columns. -/
def allTargetCols : List String := knowledgeColumns.map Prod.fst

/-- A fully migrated table: all target columns and all four indexes. -/
def tableComplete : Table :=
  { cols := allTargetCols,
    idxs := indexedColumns.map (indexName "knowledge"),
    rows := [] }

/-- A table with all target columns but no indexes. -/
def tableColsNoIdx : Table :=
  { cols := allTargetCols, idxs := [], rows := [] }

/-- A table with all target columns, no indexes, and one row whose
`source_type` is NULL. -/
def tableColsNoIdxRow : Table :=
  { cols := allTargetCols, idxs := [], rows := [none] }

/-! ### Claims -/

/-- C1 counterexample: on an existing, fully migrated table the FIRST
apply call already returns `false` (shown for the Postgres and SQLite
dialects), contradicting the claim that apply-twice yields `true` then
`false` for every table state. -/
theorem claim1_cx :
    (migratePostgres none "knowledge" (some tableComplete)).1 = false ∧
    (migrateSqlite "knowledge" (some tableComplete)).1 = false :=
  ⟨rfl, rfl⟩

/-- C1 (amended): for every dialect and every existing table, the
second of two successive apply calls returns `false` and leaves the
table (column set, index set, and rows) exactly as the first call left
it; the first call returns `true` iff some target column was missing
from the snapshot or (Postgres/MySQL-family only) some target index was
missing — not unconditionally `true`. -/
theorem claim1_apply_twice (sch : Option String) (tn : String) (t : Table) :
    applyTwiceSpec (migratePostgres sch tn)
      ((∃ c ∈ knowledgeColumns, c.1 ∉ t.cols) ∨
       ∃ col ∈ indexedColumns, indexName tn col ∉ t.idxs) t ∧
    applyTwiceSpec (migrateMysql sch tn)
      ((∃ c ∈ knowledgeColumns, c.1 ∉ t.cols) ∨
       ∃ col ∈ indexedColumns, indexName tn col ∉ t.idxs) t ∧
    applyTwiceSpec (migrateSinglestore sch tn)
      ((∃ c ∈ knowledgeColumns, c.1 ∉ t.cols) ∨
       ∃ col ∈ indexedColumns, indexName tn col ∉ t.idxs) t ∧
    applyTwiceSpec (migrateSqlite tn)
      (∃ c ∈ knowledgeColumns, c.1 ∉ t.cols) t ∧
    applyTwiceSpec (migrateAsyncPostgres sch tn)
      ((∃ c ∈ knowledgeColumns, c.1 ∉ t.cols) ∨
       ∃ col ∈ indexedColumns, indexName tn col ∉ t.idxs) t ∧
    applyTwiceSpec (migrateAsyncSqlite tn)
      (∃ c ∈ knowledgeColumns, c.1 ∉ t.cols) t :=
  ⟨applyTwiceSpec_pg sch tn t, applyTwiceSpec_mysql sch tn t,
   applyTwiceSpec_mysql sch tn t, applyTwiceSpec_sqlite tn t,
   applyTwiceSpec_pg sch tn t, applyTwiceSpec_sqlite tn t⟩

/-- C2 counterexample: SQLite apply on a table with every target column
but no index returns `false` although the run creates all four indexes
(the index set changes from empty to the four target names), so "true
iff at least one column or index was added" fails. -/
theorem claim2_cx :
    (migrateSqlite "knowledge" (some tableColsNoIdx)).1 = false ∧
    (migrateSqlite "knowledge" (some tableColsNoIdx)).2.1 =
      some { cols := allTargetCols,
             idxs := indexedColumns.map (indexName "knowledge"),
             rows := [] } :=
  ⟨rfl, rfl⟩

/-- C2 (amended): on an existing table, Postgres/MySQL-family apply
returns `true` iff at least one target column or index was missing
(hence added); SQLite apply returns `true` iff at least one target
column was missing — index creation never influences the SQLite return
value.  Backfill never influences any return value. -/
theorem claim2_return_value (sch : Option String) (tn : String) (t : Table) :
    ((migratePostgres sch tn (some t)).1 = true ↔
      (∃ c ∈ knowledgeColumns, c.1 ∉ t.cols) ∨
      ∃ col ∈ indexedColumns, indexName tn col ∉ t.idxs) ∧
    ((migrateMysql sch tn (some t)).1 = true ↔
      (∃ c ∈ knowledgeColumns, c.1 ∉ t.cols) ∨
      ∃ col ∈ indexedColumns, indexName tn col ∉ t.idxs) ∧
    ((migrateSinglestore sch tn (some t)).1 = true ↔
      (∃ c ∈ knowledgeColumns, c.1 ∉ t.cols) ∨
      ∃ col ∈ indexedColumns, indexName tn col ∉ t.idxs) ∧
    ((migrateAsyncPostgres sch tn (some t)).1 = true ↔
      (∃ c ∈ knowledgeColumns, c.1 ∉ t.cols) ∨
      ∃ col ∈ indexedColumns, indexName tn col ∉ t.idxs) ∧
    ((migrateSqlite tn (some t)).1 = true ↔
      ∃ c ∈ knowledgeColumns, c.1 ∉ t.cols) ∧
    ((migrateAsyncSqlite tn (some t)).1 = true ↔
      ∃ c ∈ knowledgeColumns, c.1 ∉ t.cols) := by
  have hpg : (migratePostgres sch tn (some t)).1 = true ↔
      (∃ c ∈ knowledgeColumns, c.1 ∉ t.cols) ∨
      ∃ col ∈ indexedColumns, indexName tn col ∉ t.idxs := by
    rw [migratePostgres_char]
    simp [colPending, idxPending, List.any_eq_true]
  have hmy : (migrateMysql sch tn (some t)).1 = true ↔
      (∃ c ∈ knowledgeColumns, c.1 ∉ t.cols) ∨
      ∃ col ∈ indexedColumns, indexName tn col ∉ t.idxs := by
    rw [migrateMysql_char]
    simp [colPending, idxPending, List.any_eq_true]
  have hsq : (migrateSqlite tn (some t)).1 = true ↔
      ∃ c ∈ knowledgeColumns, c.1 ∉ t.cols := by
    rw [migrateSqlite_char]
    simp [colPending, List.any_eq_true]
  exact ⟨hpg, hmy, hmy, hpg, hsq, hsq⟩

/-- C6: on every supported dialect, apply and revert on an absent table
return `false`, leave no table behind, and their whole effect trace is
the table-existence check plus an informational log (for the SQLite
revert: only a warning log, no statement at all). -/
theorem claim6_absent_table (sch : Option String) (tn : String) :
    migratePostgres sch tn none =
      (false, none,
       [Eff.sql (Stmt.checkTableExists (some (orDefault sch "public")) tn),
        Eff.logInfo ("Table " ++ tn ++ " does not exist, skipping migration")]) ∧
    migrateMysql sch tn none =
      (false, none,
       [Eff.sql (Stmt.checkTableExists (some (orDefault sch "agno")) tn),
        Eff.logInfo ("Table " ++ tn ++ " does not exist, skipping migration")]) ∧
    migrateSqlite tn none =
      (false, none,
       [Eff.sql (Stmt.checkTableExists none tn),
        Eff.logInfo ("Table " ++ tn ++ " does not exist, skipping migration")]) ∧
    migrateSinglestore sch tn none =
      (false, none,
       [Eff.sql (Stmt.checkTableExists (some (orDefault sch "agno")) tn),
        Eff.logInfo ("Table " ++ tn ++ " does not exist, skipping migration")]) ∧
    migrateAsyncPostgres sch tn none =
      (false, none,
       [Eff.sql (Stmt.checkTableExists (some (orDefault sch "public")) tn),
        Eff.logInfo ("Table " ++ tn ++ " does not exist, skipping migration")]) ∧
    migrateAsyncSqlite tn none =
      (false, none,
       [Eff.sql (Stmt.checkTableExists none tn),
        Eff.logInfo ("Table " ++ tn ++ " does not exist, skipping migration")]) ∧
    revertPostgres sch tn none =
      (false, none,
       [Eff.sql (Stmt.checkTableExists (some (orDefault sch "public")) tn),
        Eff.logInfo ("Table " ++ tn ++ " does not exist, skipping revert")]) ∧
    revertAsyncPostgres sch tn none =
      (false, none,
       [Eff.sql (Stmt.checkTableExists (some (orDefault sch "public")) tn),
        Eff.logInfo ("Table " ++ tn ++ " does not exist, skipping revert")]) ∧
    revertMysql sch tn none =
      (false, none,
       [Eff.sql (Stmt.checkTableExists (some (orDefault sch "agno")) tn),
        Eff.logInfo ("Table " ++ tn ++ " does not exist, skipping revert")]) ∧
    revertSinglestore sch tn none =
      (false, none,
       [Eff.sql (Stmt.checkTableExists (some (orDefault sch "agno")) tn),
        Eff.logInfo ("Table " ++ tn ++ " does not exist, skipping revert")]) ∧
    revertSqlite tn none =
      (false, none,
       [Eff.logWarning ("-- SQLite does not support DROP COLUMN easily. Manual migration may be required for " ++ tn ++ ".")]) ∧
    revertAsyncSqlite tn none =
      (false, none,
       [Eff.logWarning ("-- SQLite does not support DROP COLUMN easily. Manual migration may be required for " ++ tn ++ ".")]) :=
  ⟨rfl, rfl, rfl, rfl, rfl, rfl, rfl, rfl, rfl, rfl, rfl, rfl⟩

/-- C7: the SQLite revert (sync and async), for every table state and
every failure oracle, performs no statement and no structural change,
emits exactly one warning log, returns `false`, and never raises. -/
theorem claim7_sqlite_revert (tn : String) (ts : Option Table)
    (fails : Stmt → Bool) :
    revertSqlite tn ts =
      (false, ts,
       [Eff.logWarning ("-- SQLite does not support DROP COLUMN easily. Manual migration may be required for " ++ tn ++ ".")]) ∧
    revertAsyncSqlite tn ts =
      (false, ts,
       [Eff.logWarning ("-- SQLite does not support DROP COLUMN easily. Manual migration may be required for " ++ tn ++ ".")]) ∧
    (revertSqliteF tn ts fails).1 = Except.ok (false, ts) ∧
    (revertAsyncSqliteF tn ts fails).1 = Except.ok (false, ts) :=
  ⟨rfl, rfl, rfl, rfl⟩

/-- C9: the async apply bodies are functionally identical to their sync
counterparts: same return value, same resulting table, same effect
trace, on every input. -/
theorem claim9_sync_async_equiv (sch : Option String) (tn : String)
    (ts : Option Table) :
    migrateAsyncPostgres sch tn ts = migratePostgres sch tn ts ∧
    migrateAsyncSqlite tn ts = migrateSqlite tn ts :=
  ⟨rfl, rfl⟩

/-- C10: the SingleStore migrate and revert are exactly the MySQL
migrate and revert on the same arguments. -/
theorem claim10_singlestore_is_mysql (sch : Option String) (tn : String)
    (ts : Option Table) :
    migrateSinglestore sch tn ts = migrateMysql sch tn ts ∧
    revertSinglestore sch tn ts = revertMysql sch tn ts :=
  ⟨rfl, rfl⟩

/-- C5: when the table role is not "knowledge" or the db kind is not
one of the governed relational kinds, every entry point returns `false`
and its trace contains no SQL statement, for every failure oracle. -/
theorem claim5_not_applicable (dbType : String) (sch : Option String)
    (role tn : String) (ts : Option Table) (fails : Stmt → Bool)
    (h : role ≠ "knowledge" ∨
      dbType ∉ ["PostgresDb", "MySQLDb", "SqliteDb", "SingleStoreDb",
                "AsyncPostgresDb", "AsyncSqliteDb"]) :
    ((up dbType sch role tn ts fails).1 = Except.ok false ∧
     sqlOf (up dbType sch role tn ts fails).2 = []) ∧
    ((asyncUp dbType sch role tn ts fails).1 = Except.ok false ∧
     sqlOf (asyncUp dbType sch role tn ts fails).2 = []) ∧
    ((down dbType sch role tn ts fails).1 = Except.ok false ∧
     sqlOf (down dbType sch role tn ts fails).2 = []) ∧
    ((asyncDown dbType sch role tn ts fails).1 = Except.ok false ∧
     sqlOf (asyncDown dbType sch role tn ts fails).2 = []) := by
  rcases h with h | h
  · simp [up, asyncUp, down, asyncDown, h, sqlOf]
  · simp only [List.mem_cons, List.not_mem_nil, or_false, not_or] at h
    obtain ⟨h1, h2, h3, h4, h5, h6⟩ := h
    by_cases hr : role = "knowledge"
    · simp [up, asyncUp, down, asyncDown, upDispatch, asyncUpDispatch,
        downDispatch, asyncDownDispatch, hr, h1, h2, h3, h4, h5, h6, sqlOf]
    · simp [up, asyncUp, down, asyncDown, hr, sqlOf]

/-- C5 witness: a document-store kind ("MongoDb") with the governed
role: all four entry points no-op with `false` and zero SQL. -/
theorem claim5_witness :
    (("knowledge" : String) ≠ "knowledge" ∨
     ("MongoDb" : String) ∉ ["PostgresDb", "MySQLDb", "SqliteDb",
       "SingleStoreDb", "AsyncPostgresDb", "AsyncSqliteDb"]) ∧
    (((up "MongoDb" none "knowledge" "kn" none (fun _ => false)).1 = Except.ok false ∧
      sqlOf (up "MongoDb" none "knowledge" "kn" none (fun _ => false)).2 = []) ∧
     ((asyncUp "MongoDb" none "knowledge" "kn" none (fun _ => false)).1 = Except.ok false ∧
      sqlOf (asyncUp "MongoDb" none "knowledge" "kn" none (fun _ => false)).2 = []) ∧
     ((down "MongoDb" none "knowledge" "kn" none (fun _ => false)).1 = Except.ok false ∧
      sqlOf (down "MongoDb" none "knowledge" "kn" none (fun _ => false)).2 = []) ∧
     ((asyncDown "MongoDb" none "knowledge" "kn" none (fun _ => false)).1 = Except.ok false ∧
      sqlOf (asyncDown "MongoDb" none "knowledge" "kn" none (fun _ => false)).2 = [])) :=
  ⟨Or.inr (by decide),
   claim5_not_applicable "MongoDb" none "knowledge" "kn" none (fun _ => false)
     (Or.inr (by decide))⟩

/-- C8: whenever the dispatched inner migration/revert raises (its
fallible run returns an error), the corresponding entry point emits an
error-level log after the effects already produced and re-raises the
very same error — no swallowing, no retry, no boolean result. -/
theorem claim8_error_propagation (dbType : String) (sch : Option String)
    (tn : String) (ts : Option Table) (fails : Stmt → Bool) (e : Stmt)
    (pre : List Eff) :
    (upDispatch dbType sch tn ts fails = some (Except.error e, pre) →
      up dbType sch "knowledge" tn ts fails =
        (Except.error e,
         pre ++ [Eff.logError ("Error running migration v2.4.0 for " ++ dbType ++ " on table " ++ tn)])) ∧
    (asyncUpDispatch dbType sch tn ts fails = some (Except.error e, pre) →
      asyncUp dbType sch "knowledge" tn ts fails =
        (Except.error e,
         pre ++ [Eff.logError ("Error running migration v2.4.0 for " ++ dbType ++ " on table " ++ tn)])) ∧
    (downDispatch dbType sch tn ts fails = some (Except.error e, pre) →
      down dbType sch "knowledge" tn ts fails =
        (Except.error e,
         pre ++ [Eff.logError ("Error reverting migration v2.4.0 for " ++ dbType ++ " on table " ++ tn)])) ∧
    (asyncDownDispatch dbType sch tn ts fails = some (Except.error e, pre) →
      asyncDown dbType sch "knowledge" tn ts fails =
        (Except.error e,
         pre ++ [Eff.logError ("Error reverting migration v2.4.0 for " ++ dbType ++ " on table " ++ tn)])) := by
  refine ⟨?_, ?_, ?_, ?_⟩ <;> intro h <;>
    simp [up, asyncUp, down, asyncDown, h, tryWrap]

/-- C8 witness: Postgres apply where the very first statement (the
existence query) fails — `up` re-raises that statement as the error
after logging at error level. -/
theorem claim8_witness :
    upDispatch "PostgresDb" none "kn" (some { cols := [], idxs := [], rows := [] })
        (fun _ => true) =
      some (Except.error (Stmt.checkTableExists (some "public") "kn"), []) ∧
    up "PostgresDb" none "knowledge" "kn"
        (some { cols := [], idxs := [], rows := [] }) (fun _ => true) =
      (Except.error (Stmt.checkTableExists (some "public") "kn"),
       [Eff.logError "Error running migration v2.4.0 for PostgresDb on table kn"]) :=
  ⟨rfl,
   (claim8_error_propagation "PostgresDb" none "kn"
     (some { cols := [], idxs := [], rows := [] }) (fun _ => true)
     (Stmt.checkTableExists (some "public") "kn") []).1 rfl⟩

lemma mem_sqlOf {s : Stmt} {effs : List Eff} :
    s ∈ sqlOf effs ↔ Eff.sql s ∈ effs := by
  simp only [sqlOf, List.mem_filterMap]
  constructor
  · rintro ⟨e, he, hf⟩
    cases e with
    | sql s' =>
      simp only [Option.some.injEq] at hf
      subst hf
      exact he
    | logInfo m => simp at hf
    | logWarning m => simp at hf
    | logError m => simp at hf
  · intro h
    exact ⟨Eff.sql s, h, rfl⟩

lemma mem_ite_nil {α : Type} {c : Prop} [Decidable c] {x : α} {l : List α} :
    (x ∈ if c then l else []) ↔ c ∧ x ∈ l := by
  by_cases h : c
  · simp [h]
  · simp [h]

/-- C3 counterexample: on a fully migrated Postgres table the run DOES
issue an index-existence membership query and does NOT issue any
conditional create-index statement — the Postgres apply path is not
unconditional. -/
theorem claim3_cx :
    Stmt.checkIndexExists (some "public") "knowledge" "idx_knowledge_source_type"
      ∈ sqlOf (migratePostgres none "knowledge" (some tableComplete)).2.2 ∧
    ∀ i tb c, Stmt.createIndexIfNotExists i tb c
      ∉ sqlOf (migratePostgres none "knowledge" (some tableComplete)).2.2 := by
  have htr : sqlOf (migratePostgres none "knowledge" (some tableComplete)).2.2 =
      [Stmt.checkTableExists (some "public") "knowledge",
       Stmt.listColumnsInfo (some "public") "knowledge",
       Stmt.checkIndexExists (some "public") "knowledge" "idx_knowledge_source_type",
       Stmt.checkIndexExists (some "public") "knowledge" "idx_knowledge_upload_batch_id",
       Stmt.checkIndexExists (some "public") "knowledge" "idx_knowledge_root_id",
       Stmt.checkIndexExists (some "public") "knowledge" "idx_knowledge_root_path"] := rfl
  rw [htr]
  constructor
  · simp
  · intro i tb c h
    simp at h

/-- C3 (amended): only the SQLite apply path issues the conditional
create-index statement for each of the four indexed columns
unconditionally, with no index-existence query at all; the Postgres and
MySQL-family apply paths issue an index-existence query for each of the
four names and issue the creation statement (conditional for Postgres,
plain `ADD INDEX` for MySQL) exactly when the index is absent. -/
theorem claim3_index_policy (sch : Option String) (tn : String) (t : Table)
    (col : String) (hcol : col ∈ indexedColumns) :
    Stmt.createIndexIfNotExists (indexName tn col) tn col ∈
      sqlOf (migrateSqlite tn (some t)).2.2 ∧
    (∀ s tb i, Stmt.checkIndexExists s tb i ∉ sqlOf (migrateSqlite tn (some t)).2.2) ∧
    Stmt.checkIndexExists (some (orDefault sch "public")) tn (indexName tn col) ∈
      sqlOf (migratePostgres sch tn (some t)).2.2 ∧
    (Stmt.createIndexIfNotExists (indexName tn col) tn col ∈
       sqlOf (migratePostgres sch tn (some t)).2.2 ↔ indexName tn col ∉ t.idxs) ∧
    Stmt.checkIndexExists (some (orDefault sch "agno")) tn (indexName tn col) ∈
      sqlOf (migrateMysql sch tn (some t)).2.2 ∧
    (Stmt.addIndex (indexName tn col) tn col ∈
       sqlOf (migrateMysql sch tn (some t)).2.2 ↔ indexName tn col ∉ t.idxs) := by
  refine ⟨?_, ?_, ?_, ?_, ?_, ?_⟩
  · rw [mem_sqlOf, migrateSqlite_char]
    simp [mem_ite_nil, hcol]
  · intro s tb i h
    rw [mem_sqlOf, migrateSqlite_char] at h
    simp [mem_ite_nil] at h
  · rw [mem_sqlOf, migratePostgres_char]
    refine List.mem_append.mpr (Or.inl (List.mem_append.mpr (Or.inr ?_)))
    refine List.mem_flatMap.mpr ⟨col, hcol, ?_⟩
    exact List.mem_cons_self _ _
  · rw [mem_sqlOf, migratePostgres_char]
    simp [mem_ite_nil]
    constructor
    · rintro ⟨a, ha, hna, hea, rfl⟩
      exact hna
    · intro h
      exact ⟨col, hcol, h, rfl, rfl⟩
  · rw [mem_sqlOf, migrateMysql_char]
    refine List.mem_append.mpr (Or.inl (List.mem_append.mpr (Or.inr ?_)))
    refine List.mem_flatMap.mpr ⟨col, hcol, ?_⟩
    exact List.mem_cons_self _ _
  · rw [mem_sqlOf, migrateMysql_char]
    simp [mem_ite_nil]
    constructor
    · rintro ⟨a, ha, hna, hea, rfl⟩
      exact hna
    · intro h
      exact ⟨col, hcol, h, rfl, rfl⟩

/-- C3 witness: the amended index policy evaluated at the column
`source_type` on a concrete table with all columns and no index. -/
theorem claim3_witness :
    ("source_type" : String) ∈ indexedColumns ∧
    (Stmt.createIndexIfNotExists (indexName "knowledge" "source_type") "knowledge" "source_type" ∈
       sqlOf (migrateSqlite "knowledge" (some tableColsNoIdx)).2.2 ∧
     (∀ s tb i, Stmt.checkIndexExists s tb i ∉
        sqlOf (migrateSqlite "knowledge" (some tableColsNoIdx)).2.2) ∧
     Stmt.checkIndexExists (some "public") "knowledge" (indexName "knowledge" "source_type") ∈
       sqlOf (migratePostgres none "knowledge" (some tableColsNoIdx)).2.2 ∧
     (Stmt.createIndexIfNotExists (indexName "knowledge" "source_type") "knowledge" "source_type" ∈
        sqlOf (migratePostgres none "knowledge" (some tableColsNoIdx)).2.2 ↔
        indexName "knowledge" "source_type" ∉ tableColsNoIdx.idxs) ∧
     Stmt.checkIndexExists (some "agno") "knowledge" (indexName "knowledge" "source_type") ∈
       sqlOf (migrateMysql none "knowledge" (some tableColsNoIdx)).2.2 ∧
     (Stmt.addIndex (indexName "knowledge" "source_type") "knowledge" "source_type" ∈
        sqlOf (migrateMysql none "knowledge" (some tableColsNoIdx)).2.2 ↔
        indexName "knowledge" "source_type" ∉ tableColsNoIdx.idxs)) :=
  ⟨by decide,
   claim3_index_policy none "knowledge" tableColsNoIdx "source_type" (by decide)⟩

/-- C4 counterexample: SQLite apply on a table with every target column,
no index, and one NULL row: the run adds all four indexes yet issues no
backfill statement and leaves the NULL row NULL — refuting "backfill is
issued iff source_type was absent or a column or index was added". -/
theorem claim4_cx :
    Stmt.backfillSourceType "knowledge"
      ∉ sqlOf (migrateSqlite "knowledge" (some tableColsNoIdxRow)).2.2 ∧
    (migrateSqlite "knowledge" (some tableColsNoIdxRow)).2.1 =
      some { cols := allTargetCols,
             idxs := indexedColumns.map (indexName "knowledge"),
             rows := [none] } := by
  refine ⟨?_, rfl⟩
  decide

/-- C4 (amended): the backfill statement is issued iff `source_type`
was absent from the snapshot, or a column was added, or (Postgres/MySQL
only, not SQLite) an index was added; when issued, it sets `source_type`
to the sentinel "legacy" exactly on the rows where it is NULL and
leaves every non-NULL row unchanged. -/
theorem claim4_backfill (sch : Option String) (tn : String) (t : Table) :
    (Stmt.backfillSourceType tn ∈ sqlOf (migratePostgres sch tn (some t)).2.2 ↔
      ("source_type" ∉ t.cols ∨ (∃ c ∈ knowledgeColumns, c.1 ∉ t.cols) ∨
       ∃ col ∈ indexedColumns, indexName tn col ∉ t.idxs)) ∧
    ((migratePostgres sch tn (some t)).2.1 =
      some { cols := t.cols ++ (mCols t.cols).map Prod.fst,
             idxs := t.idxs ++ mIdxs tn t.idxs,
             rows := if "source_type" ∉ t.cols ∨ (∃ c ∈ knowledgeColumns, c.1 ∉ t.cols) ∨
                        ∃ col ∈ indexedColumns, indexName tn col ∉ t.idxs
                     then t.rows.map (fun r => if r = none then some "legacy" else r)
                     else t.rows }) ∧
    (Stmt.backfillSourceType tn ∈ sqlOf (migrateMysql sch tn (some t)).2.2 ↔
      ("source_type" ∉ t.cols ∨ (∃ c ∈ knowledgeColumns, c.1 ∉ t.cols) ∨
       ∃ col ∈ indexedColumns, indexName tn col ∉ t.idxs)) ∧
    ((migrateMysql sch tn (some t)).2.1 =
      some { cols := t.cols ++ (mCols t.cols).map Prod.fst,
             idxs := t.idxs ++ mIdxs tn t.idxs,
             rows := if "source_type" ∉ t.cols ∨ (∃ c ∈ knowledgeColumns, c.1 ∉ t.cols) ∨
                        ∃ col ∈ indexedColumns, indexName tn col ∉ t.idxs
                     then t.rows.map (fun r => if r = none then some "legacy" else r)
                     else t.rows }) ∧
    (Stmt.backfillSourceType tn ∈ sqlOf (migrateSqlite tn (some t)).2.2 ↔
      ("source_type" ∉ t.cols ∨ ∃ c ∈ knowledgeColumns, c.1 ∉ t.cols)) ∧
    ((migrateSqlite tn (some t)).2.1 =
      some { cols := t.cols ++ (mCols t.cols).map Prod.fst,
             idxs := t.idxs ++ mIdxs tn t.idxs,
             rows := if "source_type" ∉ t.cols ∨ ∃ c ∈ knowledgeColumns, c.1 ∉ t.cols
                     then t.rows.map (fun r => if r = none then some "legacy" else r)
                     else t.rows }) := by
  refine ⟨?_, ?_, ?_, ?_, ?_, ?_⟩
  · rw [mem_sqlOf, migratePostgres_char]
    simp [mem_ite_nil, colPending, idxPending, List.any_eq_true]
  · rw [migratePostgres_char]
    simp only [legacyFill, colPending, idxPending, Option.some.injEq, Table.mk.injEq]
    refine ⟨trivial, trivial, if_congr ?_ rfl rfl⟩
    simp [List.any_eq_true]
  · rw [mem_sqlOf, migrateMysql_char]
    simp [mem_ite_nil, colPending, idxPending, List.any_eq_true]
  · rw [migrateMysql_char]
    simp only [legacyFill, colPending, idxPending, Option.some.injEq, Table.mk.injEq]
    refine ⟨trivial, trivial, if_congr ?_ rfl rfl⟩
    simp [List.any_eq_true]
  · rw [mem_sqlOf, migrateSqlite_char]
    simp [mem_ite_nil, colPending, List.any_eq_true]
  · rw [migrateSqlite_char]
    simp only [legacyFill, colPending, Option.some.injEq, Table.mk.injEq]
    refine ⟨trivial, trivial, if_congr ?_ rfl rfl⟩
    simp [List.any_eq_true]

end V240
